import Mathlib

/-
Shallow embedding of packages/next-swc/crates/next-core/src/router.rs:
the route-evaluation response-protocol decoder (route_internal), the
middleware file-candidate enumeration (middleware_files) and the synthetic
config/manifest assets (config_assets).

Modelling conventions:
- Raw sandbox output bytes plus serde JSON parsing (to_str /
  parse_json_with_source_context, both external crates) are abstracted by
  their outcome: RawValue is either a decoded RouterIncomingMessage or a
  decode failure carrying the error message.
- The asynchronous stream of JavaScriptEvaluation.Stream is modelled as the
  finite list of elements the sandbox emits, in emission order; the lazy
  body stream built by route_internal is the positionwise image of the
  remaining elements under the body-chunk closure (route_body_chunk).
- anyhow Result is modelled as Except String; bail! and the question-mark
  operator become Except.error.
- The to_sys_path check is modelled by an Option String argument holding
  the resolved disk path; evaluation output is passed as an argument, and
  route_internal consults it only after the disk-path check, mirroring the
  source order where bail! precedes the call to evaluate.
-/

namespace Router

/-- Payload of a rewrite message (struct RewriteResponse, router.rs lines
82-88): destination url plus headers to merge. -/
structure RewriteResponse where
  url : String
  headers : List (String × String)
deriving Repr, DecidableEq

/-- Payload of a middleware-headers message (struct
MiddlewareHeadersResponse, router.rs lines 90-96). -/
structure MiddlewareHeadersResponse where
  status_code : Nat
  headers : List (String × String)
deriving Repr, DecidableEq

/-- Wire-level tagged union received from the sandbox (enum
RouterIncomingMessage, router.rs lines 102-110). StructuredError is opaque
to the decoder and is modelled as its message string; body bytes (Vec of
u8) are a list of naturals. -/
inductive RouterIncomingMessage where
  | rewrite (data : RewriteResponse)
  | middlewareHeaders (data : MiddlewareHeadersResponse)
  | middlewareBody (data : List Nat)
  | none
  | error (err : String)
deriving Repr, DecidableEq

/-- A raw value received from the sandbox, abstracting the external string
conversion and JSON parse by their outcome: either a parsed
RouterIncomingMessage or a decode failure with its error message. -/
inductive RawValue where
  | decoded (m : RouterIncomingMessage)
  | malformed (err : String)
deriving Repr, DecidableEq

/-- Outcome of val.to_str() followed by parse_json_with_source_context. -/
def decodeRaw : RawValue → Except String RouterIncomingMessage
  | RawValue.decoded m => Except.ok m
  | RawValue.malformed e => Except.error e

/-- One element of the evaluation stream: Option-free view of what
read.next() yields, namely Result of a raw chunk or a transport error
(SharedError, modelled by its message string). -/
inductive StreamItem where
  | ok (v : RawValue)
  | err (message : String)
deriving Repr, DecidableEq

/-- Result of the evaluate call (enum JavaScriptEvaluation from
turbopack_node): a single resolved value (itself a Result) or a stream of
elements. The wildcard arm of route_internal absorbs the Single error
case. -/
inductive JavaScriptEvaluation where
  | single (result : Except String RawValue)
  | stream (items : List StreamItem)

/-- A middleware response (struct MiddlewareResponse, router.rs lines
112-119): status and headers fixed at construction, body a forward-only
sequence of Result of bytes or error string, modelled as the list of its
elements in order. -/
structure MiddlewareResponse where
  status_code : Nat
  headers : List (String × String)
  body : List (Except String (List Nat))

/-- The four-variant outcome (enum RouterResult, router.rs lines 121-128).
The error variant carries no payload. -/
inductive RouterResult where
  | rewrite (data : RewriteResponse)
  | middleware (response : MiddlewareResponse)
  | none
  | error

/-- The per-element body mapping closure passed to read.map in
route_internal (router.rs lines 405-422): a transport error yields its
message in-band; a chunk that fails string conversion or JSON parsing
yields the decode error in-band; a decoded middleware-body message yields
its bytes; any other decoded tag yields an unexpected-message error
in-band. -/
def route_body_chunk (data : StreamItem) : Except String (List Nat) :=
  match data with
  | StreamItem.err e => Except.error e
  | StreamItem.ok c =>
    match decodeRaw c with
    | Except.error e => Except.error e
    | Except.ok (RouterIncomingMessage.middlewareBody d) => Except.ok d
    | Except.ok m =>
        Except.error ("unexpected message type: " ++ reprStr m)

/-- The decoder core of route_internal (router.rs lines 358-438), starting
at the to_sys_path disk-path check (line 359): dir is the resolved disk
path of the project (Option.none when the project path has no disk
representation, in which case the function bails before consulting the
evaluation result). A single-shot value is parsed and classified
rewrite / none / otherwise-error; parse failures propagate via the
question-mark operator as Except.error. A stream is decoded by reading its
first element: absence or a transport error yields RouterResult.error, a
first element that fails to decode propagates as Except.error, a decoded
middleware-headers message yields RouterResult.middleware with that status
and headers and the remaining elements mapped positionwise through
route_body_chunk as the body, and any other decoded tag yields
RouterResult.error. -/
def route_internal (dir : Option String) (result : JavaScriptEvaluation) :
    Except String RouterResult :=
  match dir with
  | Option.none =>
      Except.error ("Next.js requires a disk path to check for valid routes")
  | Option.some _ =>
    match result with
    | JavaScriptEvaluation.single (Except.ok val) =>
      match decodeRaw val with
      | Except.error e => Except.error e
      | Except.ok (RouterIncomingMessage.rewrite data) =>
          Except.ok (RouterResult.rewrite data)
      | Except.ok RouterIncomingMessage.none => Except.ok RouterResult.none
      | Except.ok _ => Except.ok RouterResult.error
    | JavaScriptEvaluation.single (Except.error _) =>
        Except.ok RouterResult.error
    | JavaScriptEvaluation.stream [] => Except.ok RouterResult.error
    | JavaScriptEvaluation.stream (first :: rest) =>
      match first with
      | StreamItem.err _ => Except.ok RouterResult.error
      | StreamItem.ok firstVal =>
        match decodeRaw firstVal with
        | Except.error e => Except.error e
        | Except.ok (RouterIncomingMessage.middlewareHeaders data) =>
            Except.ok (RouterResult.middleware
              { status_code := data.status_code
                headers := data.headers
                body := rest.map route_body_chunk })
        | Except.ok _ => Except.ok RouterResult.error

/-- Candidate middleware file names (middleware_files, router.rs lines
58-70): for each of the two location prefixes, in order, the prefix
concatenated with each page extension, in order. -/
def middleware_files (page_extensions : List String) : List String :=
  (["middleware.", "src/middleware."].map (fun f =>
    page_extensions.map (fun ext => f ++ ext))).flatten

/-- Modelled from the spec: NextSourceConfig and parse_config_from_source
live in util.rs, which is outside this source tree. The spec describes the
matcher configuration as an ordered list of path-matcher patterns whose
default, used when no middleware file is found, is the empty list. -/
structure NextSourceConfig where
  matcher : List String
deriving Repr, DecidableEq

/-- Default matcher configuration: empty matcher list. -/
def NextSourceConfig.default : NextSourceConfig := { matcher := [] }

/-- The manifest inner asset produced by config_assets: either the result
of processing a real middleware file through the next-edge transition
(external collaborator, opaque here) or a synthesized virtual module with
the given source text. -/
inductive ManifestAsset where
  | processed
  | virtualModule (source : String)
deriving Repr, DecidableEq

/-- Rendering of one JSON string literal. -/
def jsonString (s : String) : String := "\"" ++ s ++ "\""

/-- Compact rendering of the json! object built at router.rs line 216:
an object with the single field matcher holding the pattern list. -/
def renderMatcherJson (matcher : List String) : String :=
  "\x7b\"matcher\":[" ++ String.intercalate "," (matcher.map jsonString)
    ++ "]\x7d"

/-- The two inner assets produced by config_assets (router.rs lines
225-228): the middleware chunk-group manifest and the synthesized config
module source text. -/
structure ConfigAssets where
  middleware_chunk_group : ManifestAsset
  middleware_config : String
deriving Repr, DecidableEq

/-- config_assets (router.rs lines 172-229). The argument is the matcher
configuration parsed from the middleware source when one was found
(parse_config_from_source, external), or Option.none when no middleware
file exists. With middleware, the manifest is the processed next-edge
asset; without, it is a synthesized virtual module whose source is
export default []; and the config is the default (empty matcher). In both
cases the config asset is a synthesized module exporting a default object
with a matcher field rendered from the configuration. -/
def config_assets (middleware_config : Option NextSourceConfig) :
    ConfigAssets :=
  let mc :=
    match middleware_config with
    | Option.some c => (ManifestAsset.processed, c)
    | Option.none =>
        (ManifestAsset.virtualModule ("export default [];"),
          NextSourceConfig.default)
  { middleware_chunk_group := mc.1
    middleware_config :=
      "export default " ++ renderMatcherJson mc.2.matcher ++ ";" }

/-- C1: for a stream whose first element decodes to a MiddlewareHeaders
message and whose remaining elements are middleware-body messages carrying
the byte lists in bodies, route_internal returns RouterResult.middleware
with exactly the status code and headers of that first message, and the
body is the list of Except.ok chunks with the bytes of each subsequent
element, in emission order, ending with the end of the list. The status
and headers in the equation depend only on the first element, and the body
is the image of the tail alone, so no body chunk is observable before the
headers exist. -/
theorem C1_middleware_stream (d : String) (data : MiddlewareHeadersResponse)
    (bodies : List (List Nat)) (rest : List StreamItem)
    (hrest : rest = bodies.map (fun b =>
      StreamItem.ok (RawValue.decoded (RouterIncomingMessage.middlewareBody b)))) :
    route_internal (Option.some d)
        (JavaScriptEvaluation.stream
          (StreamItem.ok
            (RawValue.decoded (RouterIncomingMessage.middlewareHeaders data))
            :: rest))
      = Except.ok (RouterResult.middleware
          { status_code := data.status_code
            headers := data.headers
            body := bodies.map Except.ok }) := by
  subst hrest
  simp [route_internal, route_body_chunk, decodeRaw, List.map_map,
    Function.comp]

/-- C1 witness: a concrete stream with status 200, one header pair and two
body chunks. -/
theorem C1_middleware_stream_witness :
    route_internal (Option.some ("/project"))
        (JavaScriptEvaluation.stream
          [StreamItem.ok (RawValue.decoded
            (RouterIncomingMessage.middlewareHeaders
              { status_code := 200, headers := [("a", "b")] })),
           StreamItem.ok (RawValue.decoded
            (RouterIncomingMessage.middlewareBody [1, 2])),
           StreamItem.ok (RawValue.decoded
            (RouterIncomingMessage.middlewareBody [3]))])
      = Except.ok (RouterResult.middleware
          { status_code := 200
            headers := [("a", "b")]
            body := [Except.ok [1, 2], Except.ok [3]] }) :=
  C1_middleware_stream ("/project")
    { status_code := 200, headers := [("a", "b")] } [[1, 2], [3]] _ rfl

/-- C2: a single-shot value that parses as an incoming message is
classified: rewrite yields RouterResult.rewrite with the same payload,
none yields RouterResult.none, and middleware-headers, middleware-body and
error messages all yield RouterResult.error. -/
theorem C2_single_shot_classification (d : String) :
    (∀ data, route_internal (Option.some d)
        (JavaScriptEvaluation.single (Except.ok
          (RawValue.decoded (RouterIncomingMessage.rewrite data))))
      = Except.ok (RouterResult.rewrite data))
    ∧ route_internal (Option.some d)
        (JavaScriptEvaluation.single (Except.ok
          (RawValue.decoded RouterIncomingMessage.none)))
      = Except.ok RouterResult.none
    ∧ (∀ data, route_internal (Option.some d)
        (JavaScriptEvaluation.single (Except.ok
          (RawValue.decoded (RouterIncomingMessage.middlewareHeaders data))))
      = Except.ok RouterResult.error)
    ∧ (∀ data, route_internal (Option.some d)
        (JavaScriptEvaluation.single (Except.ok
          (RawValue.decoded (RouterIncomingMessage.middlewareBody data))))
      = Except.ok RouterResult.error)
    ∧ (∀ e, route_internal (Option.some d)
        (JavaScriptEvaluation.single (Except.ok
          (RawValue.decoded (RouterIncomingMessage.error e))))
      = Except.ok RouterResult.error) :=
  ⟨fun _ => rfl, rfl, fun _ => rfl, fun _ => rfl, fun _ => rfl⟩

/-- C3 counterexample: a stream whose first element is present but fails
to decode does not produce RouterResult.error; the decode failure
propagates out of route_internal as an Except.error return instead. -/
theorem C3_counterexample :
    route_internal (Option.some ("/project"))
        (JavaScriptEvaluation.stream
          [StreamItem.ok (RawValue.malformed ("bad json"))])
      = Except.error ("bad json")
    ∧ route_internal (Option.some ("/project"))
        (JavaScriptEvaluation.stream
          [StreamItem.ok (RawValue.malformed ("bad json"))])
      ≠ Except.ok RouterResult.error :=
  ⟨rfl, fun h => Except.noConfusion h⟩

/-- C3 amended: an empty stream, a transport error as first element, or a
first element decoding to any tag other than middleware-headers yields
RouterResult.error, independent of all later elements (none are read) and
with no body exposed; a first element that fails to decode instead
propagates the decode error as an Except.error return of route_internal. -/
theorem C3_first_element_errors (d : String) :
    route_internal (Option.some d) (JavaScriptEvaluation.stream [])
      = Except.ok RouterResult.error
    ∧ (∀ e rest, route_internal (Option.some d)
        (JavaScriptEvaluation.stream (StreamItem.err e :: rest))
      = Except.ok RouterResult.error)
    ∧ (∀ m rest,
        (∀ data, m ≠ RouterIncomingMessage.middlewareHeaders data) →
        route_internal (Option.some d)
          (JavaScriptEvaluation.stream
            (StreamItem.ok (RawValue.decoded m) :: rest))
        = Except.ok RouterResult.error)
    ∧ (∀ e rest, route_internal (Option.some d)
        (JavaScriptEvaluation.stream
          (StreamItem.ok (RawValue.malformed e) :: rest))
      = Except.error e) := by
  refine ⟨rfl, fun _ _ => rfl, ?_, fun _ _ => rfl⟩
  intro m rest h
  cases m with
  | rewrite data => rfl
  | middlewareHeaders data => exact absurd rfl (h data)
  | middlewareBody data => rfl
  | none => rfl
  | error e => rfl

/-- C3 witness: a none message arriving as the first stream element
yields RouterResult.error. -/
theorem C3_first_element_errors_witness :
    route_internal (Option.some ("/project"))
        (JavaScriptEvaluation.stream
          [StreamItem.ok (RawValue.decoded RouterIncomingMessage.none)])
      = Except.ok RouterResult.error :=
  (C3_first_element_errors ("/project")).2.2.1 RouterIncomingMessage.none []
    (fun _ h => RouterIncomingMessage.noConfusion h)

/-- C4 counterexample: after valid headers, a failing body element is not
terminal. With the stream headers, malformed, middleware-body the decoded
body is the error element followed by a further Except.ok chunk, so the
sequence does not end at the error element, contradicting the claim that
the body yields the successfully decoded prefix, then exactly one terminal
error element, then ends (which would make the body the one-element list
holding only the error). -/
theorem C4_counterexample :
    route_internal (Option.some ("/project"))
        (JavaScriptEvaluation.stream
          [StreamItem.ok (RawValue.decoded
            (RouterIncomingMessage.middlewareHeaders
              { status_code := 200, headers := [] })),
           StreamItem.ok (RawValue.malformed ("oops")),
           StreamItem.ok (RawValue.decoded
            (RouterIncomingMessage.middlewareBody [7]))])
      = Except.ok (RouterResult.middleware
          { status_code := 200
            headers := []
            body := [Except.error ("oops"), Except.ok [7]] })
    ∧ ([Except.error ("oops"), Except.ok [7]] :
        List (Except String (List Nat)))
      ≠ [Except.error ("oops")] :=
  ⟨rfl, by simp⟩

/-- C4 amended: after a decoded middleware-headers first element, the body
is the positionwise image of the remaining elements under
route_body_chunk, leaving the already-fixed status and headers unchanged:
a middleware-body element maps to an Except.ok chunk with its bytes, a
transport error maps to an in-band Except.error with its message, a decode
failure maps to an in-band Except.error with the decode message, and any
other decoded tag maps to an in-band unexpected-message Except.error.
Chunks before a failure appear in order at their positions, but an error
element is not terminal: elements after it are still mapped and yielded. -/
theorem C4_body_mapping (d : String) (data : MiddlewareHeadersResponse)
    (rest : List StreamItem) :
    route_internal (Option.some d)
        (JavaScriptEvaluation.stream
          (StreamItem.ok
            (RawValue.decoded (RouterIncomingMessage.middlewareHeaders data))
            :: rest))
      = Except.ok (RouterResult.middleware
          { status_code := data.status_code
            headers := data.headers
            body := rest.map route_body_chunk })
    ∧ (∀ b, route_body_chunk (StreamItem.ok
          (RawValue.decoded (RouterIncomingMessage.middlewareBody b)))
        = Except.ok b)
    ∧ (∀ e, route_body_chunk (StreamItem.err e) = Except.error e)
    ∧ (∀ e, route_body_chunk (StreamItem.ok (RawValue.malformed e))
        = Except.error e)
    ∧ (∀ m, (∀ b, m ≠ RouterIncomingMessage.middlewareBody b) →
        route_body_chunk (StreamItem.ok (RawValue.decoded m))
          = Except.error ("unexpected message type: " ++ reprStr m)) := by
  refine ⟨rfl, fun _ => rfl, fun _ => rfl, fun _ => rfl, ?_⟩
  intro m h
  cases m with
  | rewrite data => rfl
  | middlewareHeaders data => rfl
  | middlewareBody b => exact absurd rfl (h b)
  | none => rfl
  | error e => rfl

/-- C4 witness: concrete evaluation of the amended statement with one
header element, one good chunk and one unexpected-tag element. -/
theorem C4_body_mapping_witness :
    route_internal (Option.some ("/project"))
        (JavaScriptEvaluation.stream
          [StreamItem.ok (RawValue.decoded
            (RouterIncomingMessage.middlewareHeaders
              { status_code := 307, headers := [("x", "y")] })),
           StreamItem.ok (RawValue.decoded
            (RouterIncomingMessage.middlewareBody [9]))])
      = Except.ok (RouterResult.middleware
          { status_code := 307
            headers := [("x", "y")]
            body := [route_body_chunk (StreamItem.ok (RawValue.decoded
                (RouterIncomingMessage.middlewareBody [9])))] })
    ∧ route_body_chunk (StreamItem.ok
        (RawValue.decoded RouterIncomingMessage.none))
      = Except.error ("unexpected message type: "
          ++ reprStr RouterIncomingMessage.none) :=
  ⟨(C4_body_mapping ("/project")
      { status_code := 307, headers := [("x", "y")] }
      [StreamItem.ok (RawValue.decoded
        (RouterIncomingMessage.middlewareBody [9]))]).1,
   (C4_body_mapping ("/project")
      { status_code := 307, headers := [("x", "y")] } []).2.2.2.2
      RouterIncomingMessage.none
      (fun _ h => RouterIncomingMessage.noConfusion h)⟩

/-- C5 counterexample: a single-shot value whose payload is malformed does
not complete with one of the four RouterResult shapes; the decode failure
escapes route_internal as an Except.error return, visible to the caller as
a fault. -/
theorem C5_counterexample :
    route_internal (Option.some ("/project"))
        (JavaScriptEvaluation.single
          (Except.ok (RawValue.malformed ("bad payload"))))
      = Except.error ("bad payload")
    ∧ (∀ r, route_internal (Option.some ("/project"))
        (JavaScriptEvaluation.single
          (Except.ok (RawValue.malformed ("bad payload"))))
      ≠ Except.ok r) :=
  ⟨rfl, fun _ h => Except.noConfusion h⟩

/-- C5 amended: decode failures of the single-shot payload and of the
first stream element propagate to the caller as Except.error returns;
every other sandbox output completes with one of the four RouterResult
shapes or an in-band body error: a failed single-shot transport yields
RouterResult.error, every decoded single-shot message yields a
RouterResult, an empty stream or transport-failed or decoded first stream
element yields a RouterResult, and the body mapping is total, producing an
Except.ok chunk or an in-band Except.error for every element. -/
theorem C5_fault_channels (d : String) :
    (∀ e, route_internal (Option.some d)
        (JavaScriptEvaluation.single (Except.ok (RawValue.malformed e)))
      = Except.error e)
    ∧ (∀ e rest, route_internal (Option.some d)
        (JavaScriptEvaluation.stream
          (StreamItem.ok (RawValue.malformed e) :: rest))
      = Except.error e)
    ∧ (∀ e, route_internal (Option.some d)
        (JavaScriptEvaluation.single (Except.error e))
      = Except.ok RouterResult.error)
    ∧ (∀ m, ∃ r, route_internal (Option.some d)
        (JavaScriptEvaluation.single (Except.ok (RawValue.decoded m)))
      = Except.ok r)
    ∧ route_internal (Option.some d) (JavaScriptEvaluation.stream [])
      = Except.ok RouterResult.error
    ∧ (∀ e rest, route_internal (Option.some d)
        (JavaScriptEvaluation.stream (StreamItem.err e :: rest))
      = Except.ok RouterResult.error)
    ∧ (∀ m rest, ∃ r, route_internal (Option.some d)
        (JavaScriptEvaluation.stream
          (StreamItem.ok (RawValue.decoded m) :: rest))
      = Except.ok r)
    ∧ (∀ item, (∃ b, route_body_chunk item = Except.ok b)
        ∨ (∃ s, route_body_chunk item = Except.error s)) := by
  refine ⟨fun _ => rfl, fun _ _ => rfl, fun _ => rfl, ?_, rfl,
    fun _ _ => rfl, ?_, ?_⟩
  · intro m
    cases m with
    | rewrite data => exact ⟨RouterResult.rewrite data, rfl⟩
    | middlewareHeaders data => exact ⟨RouterResult.error, rfl⟩
    | middlewareBody data => exact ⟨RouterResult.error, rfl⟩
    | none => exact ⟨RouterResult.none, rfl⟩
    | error e => exact ⟨RouterResult.error, rfl⟩
  · intro m rest
    cases m with
    | rewrite data => exact ⟨RouterResult.error, rfl⟩
    | middlewareHeaders data => exact ⟨_, rfl⟩
    | middlewareBody data => exact ⟨RouterResult.error, rfl⟩
    | none => exact ⟨RouterResult.error, rfl⟩
    | error e => exact ⟨RouterResult.error, rfl⟩
  · intro item
    cases item with
    | err e => exact Or.inr ⟨e, rfl⟩
    | ok v =>
      cases v with
      | malformed e => exact Or.inr ⟨e, rfl⟩
      | decoded m =>
        cases m with
        | rewrite data => exact Or.inr ⟨_, rfl⟩
        | middlewareHeaders data => exact Or.inr ⟨_, rfl⟩
        | middlewareBody b => exact Or.inl ⟨b, rfl⟩
        | none => exact Or.inr ⟨_, rfl⟩
        | error e => exact Or.inr ⟨_, rfl⟩

/-- C6: with no middleware source, config_assets synthesizes a manifest
virtual module whose source is export default []; and the config module
for the default (empty) matcher; and for every input, with or without
middleware, the synthesized config module source is export default of an
object with a single matcher field holding a pattern list. -/
theorem C6_config_assets :
    (config_assets Option.none).middleware_chunk_group
      = ManifestAsset.virtualModule ("export default [];")
    ∧ (config_assets Option.none).middleware_config
      = "export default \x7b\"matcher\":[]\x7d;"
    ∧ (∀ mw, ∃ matcher, (config_assets mw).middleware_config
        = "export default " ++ renderMatcherJson matcher ++ ";") := by
  refine ⟨rfl, rfl, ?_⟩
  intro mw
  cases mw with
  | none => exact ⟨[], rfl⟩
  | some c => exact ⟨c.matcher, rfl⟩

/-- C7: when the project path resolves to no disk path, route_internal
fails with the configuration error message, uniformly in the evaluation
result: the bail happens before the evaluation output is consulted, and no
RouterResult is produced. -/
theorem C7_requires_disk_path (result : JavaScriptEvaluation) :
    route_internal Option.none result
      = Except.error ("Next.js requires a disk path to check for valid routes")
    ∧ (∀ r, route_internal Option.none result ≠ Except.ok r) :=
  ⟨rfl, fun _ h => Except.noConfusion h⟩

/-- C8: single-shot decoding is a pure function of the parsed message: the
same raw value decoded under any two project directories, and in
particular twice under the same one, yields the same RouterResult variant
with identical payload. In this embedding the match at router.rs lines
385-390 consults nothing but the message, so the equality is
definitional. -/
theorem C8_single_shot_pure (d₁ d₂ : String) (v : RawValue) :
    route_internal (Option.some d₁)
        (JavaScriptEvaluation.single (Except.ok v))
      = route_internal (Option.some d₂)
        (JavaScriptEvaluation.single (Except.ok v)) := rfl

/-- C9: RouterResult.error is a payload-free constructor, and every error
condition produces that same value: a sandbox-reported error message, a
middleware-headers or middleware-body message arriving as a single shot, a
failed single-shot transport, an empty stream, a transport-failed first
stream element, and a wrong-tag (rewrite) first stream element all return
exactly Except.ok RouterResult.error, so the caller cannot distinguish the
causes from the result alone. -/
theorem C9_error_carries_no_payload (d : String) :
    (∀ e, route_internal (Option.some d)
        (JavaScriptEvaluation.single (Except.ok
          (RawValue.decoded (RouterIncomingMessage.error e))))
      = Except.ok RouterResult.error)
    ∧ (∀ data, route_internal (Option.some d)
        (JavaScriptEvaluation.single (Except.ok
          (RawValue.decoded (RouterIncomingMessage.middlewareHeaders data))))
      = Except.ok RouterResult.error)
    ∧ (∀ data, route_internal (Option.some d)
        (JavaScriptEvaluation.single (Except.ok
          (RawValue.decoded (RouterIncomingMessage.middlewareBody data))))
      = Except.ok RouterResult.error)
    ∧ (∀ e, route_internal (Option.some d)
        (JavaScriptEvaluation.single (Except.error e))
      = Except.ok RouterResult.error)
    ∧ route_internal (Option.some d) (JavaScriptEvaluation.stream [])
      = Except.ok RouterResult.error
    ∧ (∀ e rest, route_internal (Option.some d)
        (JavaScriptEvaluation.stream (StreamItem.err e :: rest))
      = Except.ok RouterResult.error)
    ∧ (∀ data rest, route_internal (Option.some d)
        (JavaScriptEvaluation.stream
          (StreamItem.ok (RawValue.decoded
            (RouterIncomingMessage.rewrite data)) :: rest))
      = Except.ok RouterResult.error) :=
  ⟨fun _ => rfl, fun _ => rfl, fun _ => rfl, fun _ => rfl, rfl,
    fun _ _ => rfl, fun _ _ => rfl⟩

/-- C10: the candidate middleware file list is exactly the root-level
names middleware. followed by each extension, in extension order, and then
the src-level names src/middleware. followed by each extension, in
extension order; no other locations appear. -/
theorem C10_middleware_files (page_extensions : List String) :
    middleware_files page_extensions
      = page_extensions.map (fun ext => "middleware." ++ ext)
        ++ page_extensions.map (fun ext => "src/middleware." ++ ext) := by
  simp [middleware_files]

end Router
